import Mathlib

/-!
Shallow embedding of the campus-backend leave/attendance core
(Go source: internal/leaves, internal/attendance, internal/users,
pkg/validation, internal/auth/roles.go, internal/api/routes.go).

Timestamps are modelled at hour granularity as natural numbers
(hours since the epoch); Go `time.Time.Truncate(24*time.Hour)` becomes
truncation to a multiple of 24, `time.Duration` comparisons become
integer comparisons on hour differences.  Database access (gorm) is
modelled as pure queries over in-memory lists carried in a `DB` record;
`First` by primary key is `List.find?`, a `Where` filter is
`List.filter`, `Create` appends, `Save` replaces by primary key.
Storage-level failures (connection errors) are not modelled; the
`First`-not-found error branches of the Go code are.  Gin's
`ShouldBindJSON` with `binding:"required"` tags is modelled by the
`bind…` predicates: a field fails `required` exactly when it holds its
zero value (empty string, zero time, `false` for a bool, 0 for a uint),
which is go-playground/validator's semantics.  Result ordering
(`Order("created_at DESC")`) and pagination echo fields are not
modelled: list results are in storage order.
-/

namespace Campus

/-- Go `t.Truncate(24*time.Hour)`: round down to the start of the day. -/
def truncDay (t : Nat) : Nat := t / 24 * 24

/-- `users.User` (internal/users/model.go).  Fields not consulted by any
embedded operation (email, password, phone, external student id, active
flag, last login) are kept only where a claim could touch them. -/
structure User where
  id : Nat
  name : String
  email : String
  role : String
  dept : String
  hostel : Option String
  deriving Repr, DecidableEq

/-- `leaves.LeaveRequest` (internal/leaves/model.go). -/
structure LeaveRequest where
  id : Nat
  studentID : Nat
  leaveType : String
  reason : String
  startDate : Nat
  endDate : Nat
  status : String
  approvedBy : Option Nat
  remarks : Option String
  dept : String
  hostel : Option String
  days : Nat
  deriving Repr, DecidableEq

/-- `attendance.Attendance` (internal/attendance model). -/
structure Attendance where
  id : Nat
  studentID : Nat
  date : Nat
  present : Bool
  markedBy : Nat
  subject : Option String
  period : Option String
  deriving Repr, DecidableEq

/-- The storage collaborator's state: the three tables plus the
auto-increment counters gorm would maintain. -/
structure DB where
  users : List User
  leaves : List LeaveRequest
  attendance : List Attendance
  nextLeaveID : Nat
  nextAttendanceID : Nat
  deriving Repr, DecidableEq

/-- `db.DB.First(&user, id)`. -/
def DB.findUser (db : DB) (id : Nat) : Option User :=
  db.users.find? (fun u => u.id == id)

/-- `db.DB.First(&leave, leaveID)`. -/
def DB.findLeave (db : DB) (id : Nat) : Option LeaveRequest :=
  db.leaves.find? (fun l => l.id == id)

/-! ### pkg/validation/validation.go -/

/-- `validateDateRange`: `end.After(start)` (strict). -/
def validateDateRange (startDate endDate : Nat) : Bool :=
  decide (startDate < endDate)

/-- `validateFutureDate`: `!date.Before(time.Now().Truncate(24*time.Hour))`,
with `now` the current time passed explicitly. -/
def validateFutureDate (now date : Nat) : Bool :=
  decide (truncDay now ≤ date)

/-- `validateLeaveDuration`: `duration <= 30*24*time.Hour && duration >= 0`
where `duration := end.Sub(start)` (a signed quantity in Go). -/
def validateLeaveDuration (startDate endDate : Nat) : Bool :=
  decide ((endDate : Int) - (startDate : Int) ≤ 30 * 24 ∧
    (0 : Int) ≤ (endDate : Int) - (startDate : Int))

/-- `oneof=medical personal emergency academic`. -/
def oneofLeaveType (t : String) : Bool :=
  t == "medical" || t == "personal" || t == "emergency" || t == "academic"

/-! ### internal/leaves handlers -/

/-- `leaves.ApplyLeaveRequest` (request body). -/
structure ApplyLeaveRequest where
  leaveType : String
  reason : String
  startDate : Nat
  endDate : Nat
  deriving Repr, DecidableEq

/-- `ShouldBindJSON` for `ApplyLeaveRequest`: all four fields carry
`binding:"required"`, which fails on the zero value. -/
def bindApplyLeaveRequest (input : ApplyLeaveRequest) : Bool :=
  input.leaveType != "" && input.reason != "" &&
  input.startDate != 0 && input.endDate != 0

/-- `validation.ValidateStruct` over `ApplyLeaveRequest`'s `validate` tags:
`LeaveType required,oneof…`, `Reason required,min=10,max=500`,
`StartDate required,future_date`, `EndDate required,date_range,leave_duration`. -/
def validateApplyLeaveRequest (now : Nat) (input : ApplyLeaveRequest) : Bool :=
  input.leaveType != "" && oneofLeaveType input.leaveType &&
  input.reason != "" && decide (10 ≤ input.reason.length) &&
  decide (input.reason.length ≤ 500) &&
  input.startDate != 0 && validateFutureDate now input.startDate &&
  input.endDate != 0 && validateDateRange input.startDate input.endDate &&
  validateLeaveDuration input.startDate input.endDate

/-- The `Where` clause of the overlap query in `ApplyLeave`:
`student_id = ? AND status IN (pending, approved) AND
((start_date <= newStart AND end_date >= newStart) OR
 (start_date <= newEnd AND end_date >= newEnd))`. -/
def overlapWhere (studentID : Nat) (s e : Nat) (l : LeaveRequest) : Bool :=
  l.studentID == studentID &&
  (l.status == "pending" || l.status == "approved") &&
  ((decide (l.startDate ≤ s) && decide (s ≤ l.endDate)) ||
   (decide (l.startDate ≤ e) && decide (e ≤ l.endDate)))

inductive ApplyLeaveResult where
  /-- 400, body is gin's binding error text. -/
  | bindReject
  /-- 400 `"Validation failed"` with per-field details. -/
  | validationReject
  /-- 500 `"Student data not found"`. -/
  | studentLookupFailed
  /-- 400 `"You already have a leave request for this period"`. -/
  | overlapReject
  /-- 201 with the created record. -/
  | created (leave : LeaveRequest)
  deriving Repr, DecidableEq

/-- HTTP status the handler writes for each outcome. -/
def ApplyLeaveResult.toStatus : ApplyLeaveResult → Nat
  | .bindReject => 400
  | .validationReject => 400
  | .studentLookupFailed => 500
  | .overlapReject => 400
  | .created _ => 201

/-- `leaves.ApplyLeave` (Submit).  `studentID` is the authenticated JWT
identity; `now` is the wall clock read by the `future_date` validator. -/
def ApplyLeave (db : DB) (now : Nat) (studentID : Nat)
    (input : ApplyLeaveRequest) : ApplyLeaveResult × DB :=
  if ! bindApplyLeaveRequest input then (.bindReject, db)
  else if ! validateApplyLeaveRequest now input then (.validationReject, db)
  else match db.findUser studentID with
  | none => (.studentLookupFailed, db)
  | some student =>
    let existingLeaves :=
      db.leaves.filter (overlapWhere studentID input.startDate input.endDate)
    if existingLeaves.length > 0 then (.overlapReject, db)
    else
      let days := (input.endDate - input.startDate) / 24 + 1
      let leave : LeaveRequest :=
        { id := db.nextLeaveID
          studentID := studentID
          leaveType := input.leaveType
          reason := input.reason
          startDate := input.startDate
          endDate := input.endDate
          status := "pending"
          approvedBy := none
          remarks := none
          dept := student.dept
          hostel := student.hostel
          days := days }
      (.created leave,
        { db with leaves := db.leaves ++ [leave],
                  nextLeaveID := db.nextLeaveID + 1 })

/-- Query-string filters of `ListLeaves` (`""` = parameter absent). -/
structure ListQuery where
  status : String
  leaveType : String
  deriving Repr, DecidableEq

inductive ListLeavesResult where
  /-- 403 `"Forbidden"` (unrecognized role). -/
  | forbidden
  /-- 500 `"User not found"`. -/
  | userNotFound
  /-- 200 with the filtered records. -/
  | ok (leaves : List LeaveRequest)
  deriving Repr, DecidableEq

/-- `leaves.ListLeaves`.  The result is `none` when the Go code panics:
the warden branch dereferences `*approver.Hostel` without a nil check,
so a warden whose hostel is unset crashes the handler.  SQL `hostel = ?`
never matches a NULL column, hence `l.hostel == some h`. -/
def ListLeaves (db : DB) (userID : Nat) (role : String) (q : ListQuery) :
    Option ListLeavesResult :=
  if role == "student" then
    some (.ok (db.leaves.filter (fun l =>
      l.studentID == userID &&
      (q.status == "" || l.status == q.status) &&
      (q.leaveType == "" || l.leaveType == q.leaveType))))
  else if role == "warden" || role == "faculty" || role == "admin" then
    if role == "warden" then
      match db.findUser userID with
      | none => some .userNotFound
      | some approver =>
        match approver.hostel with
        | none => none
        | some h =>
          let statusFilter := if q.status != "" then q.status else "pending"
          some (.ok (db.leaves.filter (fun l =>
            l.hostel == some h && l.status == statusFilter &&
            (q.leaveType == "" || l.leaveType == q.leaveType))))
    else if role == "faculty" then
      match db.findUser userID with
      | none => some .userNotFound
      | some approver =>
        let statusFilter := if q.status != "" then q.status else "pending"
        some (.ok (db.leaves.filter (fun l =>
          l.dept == approver.dept && l.status == statusFilter &&
          (q.leaveType == "" || l.leaveType == q.leaveType))))
    else
      some (.ok (db.leaves.filter (fun l =>
        (q.status == "" || l.status == q.status) &&
        (q.leaveType == "" || l.leaveType == q.leaveType))))
  else
    some .forbidden

inductive GetLeaveDetailsResult where
  /-- 404 `"Leave request not found"`. -/
  | notFound
  /-- 403 `"You can only view your own leave requests"`. -/
  | forbiddenOwn
  /-- 403 `"You can only view leaves from your department"`. -/
  | forbiddenDept
  /-- 403 `"You can only view leaves from your hostel"`. -/
  | forbiddenHostel
  /-- 500 `"User not found"`. -/
  | userNotFound
  /-- 200 with the record. -/
  | ok (leave : LeaveRequest)
  deriving Repr, DecidableEq

def GetLeaveDetailsResult.toStatus : GetLeaveDetailsResult → Nat
  | .notFound => 404
  | .forbiddenOwn => 403
  | .forbiddenDept => 403
  | .forbiddenHostel => 403
  | .userNotFound => 500
  | .ok _ => 200

/-- `leaves.GetLeaveDetails`.  Roles other than student/faculty/warden
fall through every permission branch and receive the record. -/
def GetLeaveDetails (db : DB) (leaveID : Nat) (userID : Nat) (role : String) :
    GetLeaveDetailsResult :=
  match db.findLeave leaveID with
  | none => .notFound
  | some leave =>
    if role == "student" then
      if leave.studentID != userID then .forbiddenOwn else .ok leave
    else if role == "faculty" then
      match db.findUser userID with
      | none => .userNotFound
      | some approver =>
        if approver.dept != leave.dept then .forbiddenDept else .ok leave
    else if role == "warden" then
      match db.findUser userID with
      | none => .userNotFound
      | some approver =>
        match approver.hostel, leave.hostel with
        | some ah, some lh => if ah != lh then .forbiddenHostel else .ok leave
        | _, _ => .forbiddenHostel
    else .ok leave

/-- `leaves.ApproveRejectRequest` (request body). -/
structure ApproveRejectRequest where
  action : String
  remarks : Option String
  deriving Repr, DecidableEq

/-- `ShouldBindJSON`: only `Action` carries `binding:"required"`. -/
def bindApproveRejectRequest (input : ApproveRejectRequest) : Bool :=
  input.action != ""

/-- `ValidateStruct` over `Action required,oneof=approve reject` and
`Remarks max=200` (a nil pointer without `required` is skipped). -/
def validateApproveRejectRequest (input : ApproveRejectRequest) : Bool :=
  input.action != "" &&
  (input.action == "approve" || input.action == "reject") &&
  (match input.remarks with
   | none => true
   | some r => decide (r.length ≤ 200))

inductive DecideResult where
  /-- 400, body is gin's binding error text. -/
  | bindReject
  /-- 400 `"Validation failed"` with per-field details. -/
  | validationReject
  /-- 404 `"Leave request not found"`. -/
  | notFound
  /-- 400 `"Leave request has already been processed"`. -/
  | alreadyProcessed
  /-- 500 `"Approver not found"`. -/
  | approverNotFound
  /-- 403 `"You can only approve leaves from your department"`. -/
  | forbiddenDept
  /-- 403 `"You can only approve leaves from your hostel"`. -/
  | forbiddenHostel
  /-- 200 `"Leave request updated successfully"` with the updated record. -/
  | ok (leave : LeaveRequest)
  deriving Repr, DecidableEq

/-- HTTP status the handler writes for each outcome. -/
def DecideResult.toStatus : DecideResult → Nat
  | .bindReject => 400
  | .validationReject => 400
  | .notFound => 404
  | .alreadyProcessed => 400
  | .approverNotFound => 500
  | .forbiddenDept => 403
  | .forbiddenHostel => 403
  | .ok _ => 200

/-- The role-based approval restriction block of `ApproveRejectLeave`:
`some err` when one of the faculty/warden guards fires, `none` when the
handler proceeds to the update.  Every role other than faculty and
warden — including "student" and "admin" — skips the guards. -/
def decideScopeCheck (db : DB) (approverID : Nat) (role : String)
    (leave : LeaveRequest) : Option DecideResult :=
  if role == "faculty" then
    match db.findUser approverID with
    | none => some .approverNotFound
    | some approver =>
      if approver.dept != leave.dept then some .forbiddenDept else none
  else if role == "warden" then
    match db.findUser approverID with
    | none => some .approverNotFound
    | some approver =>
      match approver.hostel, leave.hostel with
      | some ah, some lh =>
        if ah != lh then some .forbiddenHostel else none
      | _, _ => some .forbiddenHostel
  else none

/-- The record `ApproveRejectLeave` persists: the status switch on the
action, the approver reference, and the remarks. -/
def decideUpdate (approverID : Nat) (input : ApproveRejectRequest)
    (leave : LeaveRequest) : LeaveRequest :=
  { leave with
    status :=
      match input.action with
      | "approve" => "approved"
      | "reject" => "rejected"
      | _ => leave.status
    approvedBy := some approverID
    remarks := input.remarks }

/-- `leaves.ApproveRejectLeave` (Decide).  `approverID`/`role` come from
the JWT middleware; the route table attaches no `RequireRole` gate to
this endpoint, so any authenticated role reaches the handler. -/
def ApproveRejectLeave (db : DB) (leaveID : Nat) (approverID : Nat)
    (role : String) (input : ApproveRejectRequest) : DecideResult × DB :=
  if ! bindApproveRejectRequest input then (.bindReject, db)
  else if ! validateApproveRejectRequest input then (.validationReject, db)
  else match db.findLeave leaveID with
  | none => (.notFound, db)
  | some leave =>
    if leave.status != "pending" then (.alreadyProcessed, db)
    else
      match decideScopeCheck db approverID role leave with
      | some r => (r, db)
      | none =>
        let updated := decideUpdate approverID input leave
        let saved := db.leaves.map (fun l => if l.id == leave.id then updated else l)
        (.ok updated, { db with leaves := saved })

/-! ### internal/attendance/handlers.go -/

/-- `attendance.MarkAttendanceRequest` (request body). -/
structure MarkAttendanceRequest where
  studentID : Nat
  date : Nat
  present : Bool
  subject : Option String
  period : Option String
  deriving Repr, DecidableEq

/-- `ShouldBindJSON`: `StudentID`, `Date` and `Present` carry
`binding:"required"`, which fails on the zero value — so `Present`
must be `true` to bind (`false` is bool's zero value and is rejected
by go-playground/validator's `required`). -/
def bindMarkAttendanceRequest (req : MarkAttendanceRequest) : Bool :=
  req.studentID != 0 && req.date != 0 && req.present == true

/-- `ValidateStruct` over `StudentID required`, `Date required`,
`Subject max=50`, `Period max=20` (`Present` has no `validate` tag). -/
def validateMarkAttendanceRequest (req : MarkAttendanceRequest) : Bool :=
  req.studentID != 0 && req.date != 0 &&
  (match req.subject with
   | none => true
   | some s => decide (s.length ≤ 50)) &&
  (match req.period with
   | none => true
   | some p => decide (p.length ≤ 20))

/-- The `Where` clause of the approved-leave query in `MarkAttendance`:
`student_id = ? AND status = approved AND start_date <= d AND end_date >= d`
with `d` the truncated mark date. -/
def approvedLeaveWhere (studentID : Nat) (d : Nat) (l : LeaveRequest) : Bool :=
  l.studentID == studentID && l.status == "approved" &&
  decide (l.startDate ≤ d) && decide (d ≤ l.endDate)

inductive MarkAttendanceResult where
  /-- 400, body is gin's binding error text. -/
  | bindReject
  /-- 400 `"Validation failed"` with per-field details. -/
  | validationReject
  /-- 404 `"Student not found"`. -/
  | studentNotFound
  /-- 400 `"Attendance already marked for this date"`. -/
  | alreadyMarked
  /-- 400 `"Student has approved leave for this date"` with the leave's
  type, reason and date range echoed under `leave_details`. -/
  | leaveConflict (leaveType reason : String) (startDate endDate : Nat)
  /-- 201 with the created record. -/
  | created (att : Attendance)
  deriving Repr, DecidableEq

/-- HTTP status the handler writes for each outcome. -/
def MarkAttendanceResult.toStatus : MarkAttendanceResult → Nat
  | .bindReject => 400
  | .validationReject => 400
  | .studentNotFound => 404
  | .alreadyMarked => 400
  | .leaveConflict _ _ _ _ => 400
  | .created _ => 201

/-- `attendance.MarkAttendance` (Mark).  `markerID` is the authenticated
JWT identity (the route restricts this endpoint to faculty). -/
def MarkAttendance (db : DB) (markerID : Nat) (req : MarkAttendanceRequest) :
    MarkAttendanceResult × DB :=
  if ! bindMarkAttendanceRequest req then (.bindReject, db)
  else if ! validateMarkAttendanceRequest req then (.validationReject, db)
  else match db.findUser req.studentID with
  | none => (.studentNotFound, db)
  | some _ =>
    let d := truncDay req.date
    match db.attendance.find? (fun a => a.studentID == req.studentID && a.date == d) with
    | some _ => (.alreadyMarked, db)
    | none =>
      match db.leaves.find? (approvedLeaveWhere req.studentID d) with
      | some approvedLeave =>
        if req.present then
          (.leaveConflict approvedLeave.leaveType approvedLeave.reason
            approvedLeave.startDate approvedLeave.endDate, db)
        else
          let att : Attendance :=
            { id := db.nextAttendanceID, studentID := req.studentID, date := d,
              present := req.present, markedBy := markerID,
              subject := req.subject, period := req.period }
          (.created att,
            { db with attendance := db.attendance ++ [att],
                      nextAttendanceID := db.nextAttendanceID + 1 })
      | none =>
        let att : Attendance :=
          { id := db.nextAttendanceID, studentID := req.studentID, date := d,
            present := req.present, markedBy := markerID,
            subject := req.subject, period := req.period }
        (.created att,
          { db with attendance := db.attendance ++ [att],
                    nextAttendanceID := db.nextAttendanceID + 1 })

/-- The record filter of `ViewAttendance`: `student_id = ?` plus the
optional date-range and subject filters.  A date parameter is `none`
when absent or unparseable — Go silently skips the filter in both
cases. -/
def attendanceQuery (db : DB) (studentID : Nat)
    (startDate endDate : Option Nat) (subject : String) : List Attendance :=
  db.attendance.filter (fun a =>
    a.studentID == studentID &&
    (match startDate with
     | none => true
     | some s => decide (s ≤ a.date)) &&
    (match endDate with
     | none => true
     | some e => decide (a.date ≤ e)) &&
    (subject == "" || a.subject == some subject))

inductive ViewAttendanceResult where
  /-- 400 `"student_id parameter is required"`. -/
  | missingStudentID
  /-- 200 with the filtered records. -/
  | ok (records : List Attendance)
  deriving Repr, DecidableEq

/-- `attendance.ViewAttendance`.  For every non-student role the
`student_id` query parameter is only checked for non-emptiness; the
code then assigns the placeholder `studentID = 1` instead of parsing
the parameter. -/
def ViewAttendance (db : DB) (userID : Nat) (role : String)
    (studentIDParam : String) (startDate endDate : Option Nat)
    (subject : String) : ViewAttendanceResult :=
  if role == "student" then
    .ok (attendanceQuery db userID startDate endDate subject)
  else if studentIDParam == "" then .missingStudentID
  else .ok (attendanceQuery db 1 startDate endDate subject)

/-- `attendance.AttendanceStats` (response body).  Go's `float64`
percentage is modelled as an exact rational. -/
structure AttendanceStats where
  studentID : Nat
  studentName : String
  totalDays : Nat
  presentDays : Nat
  absentDays : Int
  attendancePercentage : ℚ
  lastAttendance : Option Nat
  deriving Repr, DecidableEq

inductive GetStatsResult where
  /-- 400 `"student_id parameter is required"`. -/
  | missingStudentID
  /-- 404 `"Student not found"`. -/
  | studentNotFound
  /-- 200 with the statistics. -/
  | ok (stats : AttendanceStats)
  deriving Repr, DecidableEq

/-- `attendance.GetStats`.  Same placeholder student selection as
`ViewAttendance`; the `Order("date DESC").First` query for the most
recent record is modelled as the maximum stored date. -/
def GetStats (db : DB) (userID : Nat) (role : String)
    (studentIDParam : String) : GetStatsResult :=
  let pick : Option Nat :=
    if role == "student" then some userID
    else if studentIDParam == "" then none
    else some 1
  match pick with
  | none => .missingStudentID
  | some studentID =>
    match db.findUser studentID with
    | none => .studentNotFound
    | some student =>
      let records := db.attendance.filter (fun a => a.studentID == studentID)
      let totalDays := records.length
      let presentDays := (records.filter (fun a => a.present)).length
      let lastAttendance :=
        match records with
        | [] => none
        | _ => some (records.foldl (fun acc a => max acc a.date) 0)
      let attendancePercentage : ℚ :=
        if totalDays > 0 then (presentDays : ℚ) / (totalDays : ℚ) * 100 else 0
      .ok { studentID := studentID
            studentName := student.name
            totalDays := totalDays
            presentDays := presentDays
            absentDays := (totalDays : Int) - (presentDays : Int)
            attendancePercentage := attendancePercentage
            lastAttendance := lastAttendance }

/-- Specification notion, for comparison with the code's day count.
Modelled from the spec's words: the "inclusive calendar-day span of
[start,end]" is the number of calendar days the closed interval
touches. -/
def specInclusiveDaySpan (s e : Nat) : Nat := e / 24 - s / 24 + 1

/-- Projection of a stats result onto the student the statistics were
computed for. -/
def GetStatsResult.selectedStudent : GetStatsResult → Option Nat
  | .ok s => some s.studentID
  | _ => none

/-! ### Concrete fixtures used by the evaluation theorems -/

def alice : User :=
  { id := 1, name := "Alice", email := "alice@campus.edu",
    role := "student", dept := "CS", hostel := some "A" }

def bob : User :=
  { id := 2, name := "Bob", email := "bob@campus.edu",
    role := "faculty", dept := "CS", hostel := none }

/-- A warden whose hostel affiliation is unset. -/
def walter : User :=
  { id := 4, name := "Walter", email := "walter@campus.edu",
    role := "warden", dept := "CS", hostel := none }

/-- A student in a different department, with no hostel. -/
def carol : User :=
  { id := 5, name := "Carol", email := "carol@campus.edu",
    role := "student", dept := "EE", hostel := none }

/-- An approved leave of student 1 spanning hours [96,120] (days 4–5). -/
def approvedLeave96 : LeaveRequest :=
  { id := 1, studentID := 1, leaveType := "medical",
    reason := "flu recovery rest period", startDate := 96, endDate := 120,
    status := "approved", approvedBy := some 2, remarks := none,
    dept := "CS", hostel := some "A", days := 2 }

/-- A pending leave of student 1 spanning hours [96,120]. -/
def pendingLeave96 : LeaveRequest :=
  { approvedLeave96 with status := "pending", approvedBy := none }

/-! ### C1: the overlap check misses a new range that strictly contains
an existing one -/

def dbC1 : DB :=
  { users := [alice], leaves := [approvedLeave96], attendance := [],
    nextLeaveID := 2, nextAttendanceID := 1 }

/-- New request [24,240] strictly containing the approved [96,120]. -/
def inputC1 : ApplyLeaveRequest :=
  { leaveType := "personal", reason := "family event at home",
    startDate := 24, endDate := 240 }

/-- C1: the claim says Submit rejects any new request whose range
intersects an existing pending/approved leave, including when one range
entirely contains the other.  The code's overlap query only looks for
an existing leave covering the new start or the new end, so a new range
that strictly contains an existing approved leave is accepted and a
second, overlapping record is created: student 1 holds the approved
leave [96,120], submits [24,240], and the handler answers 201 and
stores the request. -/
theorem C1_containing_range_accepted :
    ((ApplyLeave dbC1 24 1 inputC1).1.toStatus = 201 ∧
     (ApplyLeave dbC1 24 1 inputC1).2.leaves.length = 2) ∧
    (inputC1.startDate < approvedLeave96.startDate ∧
     approvedLeave96.endDate < inputC1.endDate ∧
     approvedLeave96.status = "approved" ∧
     approvedLeave96.studentID = 1) := by
  decide

/-! ### C4: warden with unset hostel panics in ListLeaves -/

def dbC4 : DB :=
  { users := [walter], leaves := [pendingLeave96], attendance := [],
    nextLeaveID := 2, nextAttendanceID := 1 }

/-- C4: the claim says every scoped operation fails closed with
Forbidden for a warden with an unset hostel and never panics.  Viewing
and deciding do fail closed, but listing dereferences the warden's nil
hostel pointer without a guard and panics (modelled as `none`): warden
4 has no hostel, yet `ListLeaves` crashes instead of answering 403. -/
theorem C4_warden_nil_hostel_list_panics :
    ListLeaves dbC4 4 "warden" { status := "", leaveType := "" } = none ∧
    GetLeaveDetails dbC4 1 4 "warden" = .forbiddenHostel ∧
    (ApproveRejectLeave dbC4 1 4 "warden"
      { action := "approve", remarks := none }).1 = .forbiddenHostel ∧
    walter.role = "warden" ∧ walter.hostel = none := by
  decide

/-! ### C6: marking `present = false` on a leave day is rejected at
binding instead of being accepted -/

def dbC6 : DB :=
  { users := [alice, bob], leaves := [approvedLeave96], attendance := [],
    nextLeaveID := 2, nextAttendanceID := 1 }

/-- Mark student 1 on hour 96 (inside the approved leave [96,120]). -/
def reqC6false : MarkAttendanceRequest :=
  { studentID := 1, date := 96, present := false,
    subject := none, period := none }

def reqC6true : MarkAttendanceRequest :=
  { reqC6false with present := true }

/-- C6: the claim says that for a student with an approved leave
covering the date and no existing record, `present = true` is rejected
with the structured leave-conflict response (this half holds) and
`present = false` is accepted and creates the record.  The `Present`
field carries `binding:"required"`, and go-playground/validator's
`required` fails on a bool's zero value, so a `present = false` body
never passes `ShouldBindJSON`: the call is rejected with a 400 binding
error and no record is created. -/
theorem C6_present_false_rejected_at_binding :
    MarkAttendance dbC6 2 reqC6false = (.bindReject, dbC6) ∧
    MarkAttendance dbC6 2 reqC6true =
      (.leaveConflict "medical" "flu recovery rest period" 96 120, dbC6) ∧
    (dbC6.attendance = [] ∧ approvedLeave96.startDate ≤ truncDay reqC6false.date ∧
     truncDay reqC6false.date ≤ approvedLeave96.endDate ∧
     approvedLeave96.status = "approved") := by
  decide

/-! ### C2 counterexample: already-processed is a 400, not a 409 -/

def dbC2 : DB :=
  { users := [alice, bob], leaves := [approvedLeave96], attendance := [],
    nextLeaveID := 2, nextAttendanceID := 1 }

def inputApprove : ApproveRejectRequest := { action := "approve", remarks := none }

def inputReject : ApproveRejectRequest := { action := "reject", remarks := none }

/-- C2 counterexample: deciding the already-approved leave 1 does fail
with the "already processed" rejection and leaves the store unchanged,
but the handler writes HTTP 400, not the 409 Conflict the claim (via
the spec's error taxonomy) requires. -/
theorem C2_already_processed_is_400_not_409 :
    (ApproveRejectLeave dbC2 1 2 "faculty" inputApprove).1 = .alreadyProcessed ∧
    (ApproveRejectLeave dbC2 1 2 "faculty" inputApprove).2 = dbC2 ∧
    (ApproveRejectLeave dbC2 1 2 "faculty" inputApprove).1.toStatus = 400 ∧
    (ApproveRejectLeave dbC2 1 2 "faculty" inputApprove).1.toStatus ≠ 409 := by
  decide

/-! ### C3 counterexample: a student-role actor can decide a leave -/

def dbC3 : DB :=
  { users := [alice, carol], leaves := [pendingLeave96], attendance := [],
    nextLeaveID := 2, nextAttendanceID := 1 }

/-- The record as it stands after student 5 approves leave 1. -/
def leaveC3decided : LeaveRequest :=
  { pendingLeave96 with status := "approved", approvedBy := some 5 }

/-- C3 counterexample: the claim says a student-role actor always gets
Forbidden from Decide and no leave ever carries a student as approver.
The handler's role dispatch only guards the faculty and warden
branches and the route has no role gate, so student 5 (a different
department, no hostel) approves student 1's pending leave: the call
answers 200 and the stored record now carries status "approved" with
the student as approver. -/
theorem C3_student_can_decide :
    (ApproveRejectLeave dbC3 1 5 "student" inputApprove).1.toStatus = 200 ∧
    (ApproveRejectLeave dbC3 1 5 "student" inputApprove).2.findLeave 1 =
      some leaveC3decided ∧
    carol.role = "student" ∧ leaveC3decided.status = "approved" ∧
    leaveC3decided.approvedBy = some carol.id := by
  decide

/-! ### C5 counterexample: a single-day request (end = start) is rejected -/

def dbC5 : DB :=
  { users := [alice], leaves := [], attendance := [],
    nextLeaveID := 1, nextAttendanceID := 1 }

/-- A one-day request: end = start = hour 48 (day 2), submitted on day 1. -/
def inputC5 : ApplyLeaveRequest :=
  { leaveType := "personal", reason := "attending family function",
    startDate := 48, endDate := 48 }

/-- C5 counterexample: the claim says Submit accepts exactly when
end ≥ start (plus the other conditions), so a single-day request with
end = start must be accepted.  The `date_range` validator is
`end.After(start)` — strictly after — so this request, which satisfies
every condition the claim lists (type enumerated, reason length 25,
start on a future day, span 1 day, no existing leaves), is rejected
with the validation error instead of being created. -/
theorem C5_single_day_rejected :
    (ApplyLeave dbC5 24 1 inputC5).1 = .validationReject ∧
    (ApplyLeave dbC5 24 1 inputC5).2 = dbC5 ∧
    (inputC5.endDate = inputC5.startDate ∧
     oneofLeaveType inputC5.leaveType = true ∧
     10 ≤ inputC5.reason.length ∧ inputC5.reason.length ≤ 500 ∧
     truncDay 24 ≤ inputC5.startDate ∧
     dbC5.leaves = []) := by
  decide

/-! ### C7 counterexample: a duplicate mark with `present = false` is
rejected at binding, not with the already-marked error -/

def dbC7 : DB :=
  { users := [alice, bob], leaves := [],
    attendance := [{ id := 1, studentID := 1, date := 96, present := true,
                     markedBy := 2, subject := none, period := none }],
    nextLeaveID := 1, nextAttendanceID := 2 }

def reqC7false : MarkAttendanceRequest :=
  { studentID := 1, date := 96, present := false,
    subject := none, period := none }

/-- C7 counterexample: the claim says a second Mark for an already
marked (student, date) pair is rejected with the Conflict
("already marked") error regardless of the supplied present value.
With `present = false` the body already fails the `binding:"required"`
check on the bool, so the uniqueness check is never reached: the call
is rejected, but with the binding error, not the already-marked one. -/
theorem C7_duplicate_false_not_already_marked :
    MarkAttendance dbC7 2 reqC7false = (.bindReject, dbC7) ∧
    MarkAttendanceResult.bindReject ≠ MarkAttendanceResult.alreadyMarked ∧
    (dbC7.attendance.find? (fun a =>
      a.studentID == reqC7false.studentID &&
      a.date == truncDay reqC7false.date)).isSome = true := by
  decide

/-! ### C8 counterexample: the stored day count can differ from the
inclusive calendar-day span -/

def dbC8 : DB :=
  { users := [alice], leaves := [], attendance := [],
    nextLeaveID := 1, nextAttendanceID := 1 }

/-- Start day 1 at 23:00 (hour 47), end day 2 at 01:00 (hour 49). -/
def inputC8 : ApplyLeaveRequest :=
  { leaveType := "medical", reason := "short medical procedure",
    startDate := 47, endDate := 49 }

/-- The record Submit creates for `inputC8`. -/
def leaveC8 : LeaveRequest :=
  { id := 1, studentID := 1, leaveType := "medical",
    reason := "short medical procedure", startDate := 47, endDate := 49,
    status := "pending", approvedBy := none, remarks := none,
    dept := "CS", hostel := some "A", days := 1 }

/-- C8 counterexample: the claim says the stored day count of every
accepted submission equals the inclusive calendar-day span of
[start,end].  Submitted timestamps keep their time of day, and the code
computes `int(hours/24) + 1` on the raw difference: a request from day
1 23:00 to day 2 01:00 is accepted and stored with days = 1, while the
closed interval touches 2 calendar days. -/
theorem C8_days_ne_calendar_span :
    (ApplyLeave dbC8 24 1 inputC8).1 = .created leaveC8 ∧
    leaveC8.days = 1 ∧
    specInclusiveDaySpan inputC8.startDate inputC8.endDate = 2 ∧
    leaveC8.days ≠ specInclusiveDaySpan inputC8.startDate inputC8.endDate := by
  decide

/-! ### C9 counterexample: an unrecognized role can read any leave -/

def dbC9 : DB :=
  { users := [alice], leaves := [pendingLeave96], attendance := [],
    nextLeaveID := 2, nextAttendanceID := 1 }

/-- C9 counterexample: the claim says an actor whose role is outside
{admin, student, faculty, warden} is denied by both List and Get.
List does answer Forbidden, but Get only guards the student, faculty
and warden branches and returns the record to every other role: an
actor with role "guest" reads student 1's leave. -/
theorem C9_unknown_role_reads_leave :
    GetLeaveDetails dbC9 1 9 "guest" = .ok pendingLeave96 ∧
    (GetLeaveDetails dbC9 1 9 "guest").toStatus = 200 ∧
    (GetLeaveDetails dbC9 1 9 "guest").toStatus ≠ 403 := by
  decide

/-! ### Helper lemmas -/

theorem oneofLeaveType_ne_empty {t : String} (h : oneofLeaveType t = true) :
    t ≠ "" := by
  intro he
  subst he
  simp [oneofLeaveType] at h

theorem ne_empty_of_ten_le_length {r : String} (h : 10 ≤ r.length) :
    r ≠ "" := by
  intro he
  subst he
  have h0 : ("" : String).length = 0 := rfl
  omega

theorem truncDay_ge_24 {now : Nat} (h : 24 ≤ now) : 24 ≤ truncDay now := by
  unfold truncDay
  have h1 : 1 ≤ now / 24 := (Nat.one_le_div_iff (by norm_num)).mpr h
  calc 24 = 1 * 24 := by ring
    _ ≤ now / 24 * 24 := Nat.mul_le_mul_right _ h1

theorem validateApplyLeaveRequest_eq_true {now : Nat}
    {input : ApplyLeaveRequest}
    (h : validateApplyLeaveRequest now input = true) :
    oneofLeaveType input.leaveType = true ∧
    10 ≤ input.reason.length ∧ input.reason.length ≤ 500 ∧
    truncDay now ≤ input.startDate ∧
    input.startDate < input.endDate ∧
    input.endDate - input.startDate ≤ 720 := by
  simp only [validateApplyLeaveRequest, validateFutureDate, validateDateRange,
    validateLeaveDuration, Bool.and_eq_true, decide_eq_true_eq, bne_iff_ne,
    ne_eq, and_assoc] at h
  obtain ⟨-, h2, -, h4, h5, -, h7, -, h9, h10, h11⟩ := h
  exact ⟨h2, h4, h5, h7, h9, by omega⟩

theorem validateApplyLeaveRequest_intro {now : Nat}
    {input : ApplyLeaveRequest} (hnow : 24 ≤ now)
    (h1 : oneofLeaveType input.leaveType = true)
    (h2 : 10 ≤ input.reason.length) (h3 : input.reason.length ≤ 500)
    (h4 : truncDay now ≤ input.startDate)
    (h5 : input.startDate < input.endDate)
    (h6 : input.endDate - input.startDate ≤ 720) :
    validateApplyLeaveRequest now input = true := by
  have ht := truncDay_ge_24 hnow
  simp only [validateApplyLeaveRequest, validateFutureDate, validateDateRange,
    validateLeaveDuration, Bool.and_eq_true, decide_eq_true_eq, bne_iff_ne,
    ne_eq, and_assoc]
  refine ⟨oneofLeaveType_ne_empty h1, h1, ne_empty_of_ten_le_length h2,
    h2, h3, by omega, h4, by omega, h5, by omega, by omega⟩

theorem bindApplyLeaveRequest_intro {now : Nat} {input : ApplyLeaveRequest}
    (hnow : 24 ≤ now)
    (h : validateApplyLeaveRequest now input = true) :
    bindApplyLeaveRequest input = true := by
  obtain ⟨h1, h2, -, h4, h5, -⟩ := validateApplyLeaveRequest_eq_true h
  have ht := truncDay_ge_24 hnow
  simp only [bindApplyLeaveRequest, Bool.and_eq_true, bne_iff_ne, ne_eq,
    and_assoc]
  exact ⟨oneofLeaveType_ne_empty h1, ne_empty_of_ten_le_length h2,
    by omega, by omega⟩

/-- Inversion of the creation branch of `ApplyLeave`. -/
theorem ApplyLeave_created_inv {db : DB} {now : Nat} {sid : Nat}
    {input : ApplyLeaveRequest} {leave : LeaveRequest}
    (h : (ApplyLeave db now sid input).1 = .created leave) :
    bindApplyLeaveRequest input = true ∧
    validateApplyLeaveRequest now input = true ∧
    leave.days = (input.endDate - input.startDate) / 24 + 1 ∧
    leave.startDate = input.startDate ∧ leave.endDate = input.endDate := by
  unfold ApplyLeave at h
  split at h
  · simp at h
  · split at h
    · simp at h
    · rename_i hb hv
      split at h
      · simp at h
      · dsimp only at h
        split at h
        · simp at h
        · simp only [Prod.fst] at h
          cases h
          refine ⟨?_, ?_, rfl, rfl, rfl⟩
          · revert hb
            cases bindApplyLeaveRequest input <;> simp
          · revert hv
            cases validateApplyLeaveRequest now input <;> simp

/-! ### C5 (amended) and C8 (amended) -/

/-- A 31-inclusive-day request: start hour 48 (day 2), end hour 768
(day 32), difference exactly 30 days. -/
def inputC5long : ApplyLeaveRequest :=
  { leaveType := "academic", reason := "semester long internship",
    startDate := 48, endDate := 768 }

/-- C5 (amended): for a submitting student that exists and has no
existing pending/approved leave matched by the overlap query, Submit
accepts exactly when the type is enumerated, the reason length lies in
[10,500], start is not before today, end is STRICTLY after start (so a
single-day request with end = start is rejected with the validation
error), and end − start is at most 30 days — which admits a request
spanning 31 inclusive calendar days. -/
theorem C5_submit_accept_characterization
    (db : DB) (now sid : Nat) (input : ApplyLeaveRequest) (student : User)
    (hnow : 24 ≤ now)
    (hstudent : db.findUser sid = some student)
    (hnooverlap :
      db.leaves.filter (overlapWhere sid input.startDate input.endDate) = []) :
    ((ApplyLeave db now sid input).1.toStatus = 201 ↔
      (oneofLeaveType input.leaveType = true ∧
       10 ≤ input.reason.length ∧ input.reason.length ≤ 500 ∧
       truncDay now ≤ input.startDate ∧
       input.startDate < input.endDate ∧
       input.endDate - input.startDate ≤ 720)) ∧
    (bindApplyLeaveRequest input = true → input.endDate = input.startDate →
      (ApplyLeave db now sid input).1 = .validationReject) := by
  constructor
  · constructor
    · intro hstat
      cases hres : (ApplyLeave db now sid input).1 with
      | created leave =>
        obtain ⟨-, hv, -⟩ := ApplyLeave_created_inv hres
        exact validateApplyLeaveRequest_eq_true hv
      | bindReject => rw [hres] at hstat; simp [ApplyLeaveResult.toStatus] at hstat
      | validationReject => rw [hres] at hstat; simp [ApplyLeaveResult.toStatus] at hstat
      | studentLookupFailed => rw [hres] at hstat; simp [ApplyLeaveResult.toStatus] at hstat
      | overlapReject => rw [hres] at hstat; simp [ApplyLeaveResult.toStatus] at hstat
    · rintro ⟨h1, h2, h3, h4, h5, h6⟩
      have hv := validateApplyLeaveRequest_intro hnow h1 h2 h3 h4 h5 h6
      have hb := bindApplyLeaveRequest_intro hnow hv
      simp [ApplyLeave, hb, hv, hstudent, hnooverlap, ApplyLeaveResult.toStatus]
  · intro hbind he
    have hv : validateApplyLeaveRequest now input = false := by
      cases hval : validateApplyLeaveRequest now input
      · rfl
      · obtain ⟨-, -, -, -, h5, -⟩ := validateApplyLeaveRequest_eq_true hval
        omega
    simp [ApplyLeave, hbind, hv]

/-- C5 witness: the hypotheses hold for student 1 on the empty store,
and the characterization accepts the 31-inclusive-day request
`inputC5long` (end − start = 30 days exactly). -/
theorem C5_submit_accept_characterization_witness :
    (24 ≤ 24 ∧ dbC5.findUser 1 = some alice ∧
     dbC5.leaves.filter
       (overlapWhere 1 inputC5long.startDate inputC5long.endDate) = []) ∧
    (ApplyLeave dbC5 24 1 inputC5long).1.toStatus = 201 := by
  refine ⟨⟨by decide, by decide, by decide⟩, ?_⟩
  exact (C5_submit_accept_characterization dbC5 24 1 inputC5long alice
    (by decide) (by decide) (by decide)).1.mpr (by decide)

/-- C8 (amended): for every accepted submission the stored day count
equals (end − start in whole days) + 1 and is at least 1; it equals the
inclusive calendar-day span of [start,end] whenever the two timestamps
carry the same time of day (in particular for midnight-aligned dates),
but not in general. -/
theorem C8_days_formula
    (db : DB) (now sid : Nat) (input : ApplyLeaveRequest)
    (leave : LeaveRequest)
    (h : (ApplyLeave db now sid input).1 = .created leave) :
    leave.days = (input.endDate - input.startDate) / 24 + 1 ∧
    1 ≤ leave.days ∧
    (input.startDate % 24 = input.endDate % 24 →
      leave.days = specInclusiveDaySpan input.startDate input.endDate) := by
  obtain ⟨-, hv, hd, -, -⟩ := ApplyLeave_created_inv h
  obtain ⟨-, -, -, -, h5, h6⟩ := validateApplyLeaveRequest_eq_true hv
  refine ⟨hd, by omega, ?_⟩
  intro hmod
  unfold specInclusiveDaySpan
  omega

def dbC8b : DB :=
  { users := [alice], leaves := [], attendance := [],
    nextLeaveID := 1, nextAttendanceID := 1 }

/-- A midnight-aligned three-day request: hours [48,96] = days 2–4. -/
def inputC8b : ApplyLeaveRequest :=
  { leaveType := "personal", reason := "visiting my grandparents",
    startDate := 48, endDate := 96 }

/-- The record Submit creates for `inputC8b`. -/
def leaveC8b : LeaveRequest :=
  { id := 1, studentID := 1, leaveType := "personal",
    reason := "visiting my grandparents", startDate := 48, endDate := 96,
    status := "pending", approvedBy := none, remarks := none,
    dept := "CS", hostel := some "A", days := 3 }

/-- C8 witness: the aligned request [48,96] is accepted with
days = 3 = (96−48)/24 + 1, which also equals its inclusive span. -/
theorem C8_days_formula_witness :
    (ApplyLeave dbC8b 24 1 inputC8b).1 = .created leaveC8b ∧
    (leaveC8b.days = (inputC8b.endDate - inputC8b.startDate) / 24 + 1 ∧
     1 ≤ leaveC8b.days ∧
     (inputC8b.startDate % 24 = inputC8b.endDate % 24 →
       leaveC8b.days = specInclusiveDaySpan inputC8b.startDate inputC8b.endDate)) := by
  refine ⟨by decide, ?_⟩
  exact C8_days_formula dbC8b 24 1 inputC8b leaveC8b (by decide)

/-! ### Decide-handler inversion lemmas -/

theorem validateApproveRejectRequest_action {input : ApproveRejectRequest}
    (h : validateApproveRejectRequest input = true) :
    input.action = "approve" ∨ input.action = "reject" := by
  simp only [validateApproveRejectRequest, Bool.and_eq_true, Bool.or_eq_true,
    beq_iff_eq, bne_iff_ne, ne_eq, and_assoc] at h
  tauto

theorem bindApproveRejectRequest_of_validate {input : ApproveRejectRequest}
    (h : validateApproveRejectRequest input = true) :
    bindApproveRejectRequest input = true := by
  simp only [validateApproveRejectRequest, Bool.and_eq_true, and_assoc] at h
  exact h.1

theorem decideUpdate_status {aid : Nat} {input : ApproveRejectRequest}
    {leave : LeaveRequest}
    (h : input.action = "approve" ∨ input.action = "reject") :
    (decideUpdate aid input leave).status = "approved" ∨
    (decideUpdate aid input leave).status = "rejected" := by
  unfold decideUpdate
  rcases h with h | h <;> rw [h] <;> simp

theorem decideUpdate_id (aid : Nat) (input : ApproveRejectRequest)
    (leave : LeaveRequest) : (decideUpdate aid input leave).id = leave.id := rfl

theorem decideScopeCheck_ne_ok {db : DB} {aid : Nat} {role : String}
    {leave res : LeaveRequest}
    (h : decideScopeCheck db aid role leave = some (.ok res)) : False := by
  unfold decideScopeCheck at h
  split at h
  · split at h
    · simp at h
    · split at h <;> simp at h
  · split at h
    · split at h
      · simp at h
      · split at h
        · split at h <;> simp at h
        · simp at h
    · simp at h

theorem decideScopeCheck_other {db : DB} {aid : Nat} {role : String}
    {leave : LeaveRequest} (h1 : role ≠ "faculty") (h2 : role ≠ "warden") :
    decideScopeCheck db aid role leave = none := by
  unfold decideScopeCheck
  simp [h1, h2]

/-- The first `find?` hit of a list is preserved by a map that fixes
every element failing the predicate and keeps the hit satisfying it. -/
theorem find?_replace_first {α : Type} (p : α → Bool) (f : α → α)
    (l : List α) (a : α) (h : l.find? p = some a)
    (h1 : ∀ x, p x = false → f x = x) (h2 : p (f a) = true) :
    (l.map f).find? p = some (f a) := by
  induction l with
  | nil => simp at h
  | cons x xs ih =>
    cases hx : p x with
    | true =>
      rw [List.find?_cons_of_pos _ hx] at h
      injection h with h
      subst h
      simp only [List.map_cons]
      rw [List.find?_cons_of_pos _ h2]
    | false =>
      rw [List.find?_cons_of_neg _ (by simp [hx])] at h
      simp only [List.map_cons]
      rw [h1 x hx]
      rw [List.find?_cons_of_neg _ (by simp [hx])]
      exact ih h

/-- Inversion of the success branch of `ApproveRejectLeave`. -/
theorem ApproveRejectLeave_ok_inv {db : DB} {lid aid : Nat} {role : String}
    {input : ApproveRejectRequest} {res : LeaveRequest} {db2 : DB}
    (h : ApproveRejectLeave db lid aid role input = (.ok res, db2)) :
    bindApproveRejectRequest input = true ∧
    validateApproveRejectRequest input = true ∧
    ∃ leave, db.findLeave lid = some leave ∧ leave.status = "pending" ∧
      decideScopeCheck db aid role leave = none ∧
      res = decideUpdate aid input leave ∧
      db2 = { db with leaves := db.leaves.map (fun l => if l.id == leave.id then res else l) } := by
  unfold ApproveRejectLeave at h
  split at h
  · simp at h
  · split at h
    · simp at h
    · rename_i hb hv
      split at h
      · simp at h
      · rename_i leave hleave
        split at h
        · simp at h
        · rename_i hpend
          split at h
          · rename_i r hscope
            simp only [Prod.mk.injEq] at h
            rw [h.1] at hscope
            exact absurd hscope (fun hh => decideScopeCheck_ne_ok hh)
          · rename_i hscope
            dsimp only at h
            simp only [Prod.mk.injEq, DecideResult.ok.injEq] at h
            obtain ⟨hres, hdb⟩ := h
            refine ⟨?_, ?_, leave, hleave, ?_, hscope, hres.symm, ?_⟩
            · revert hb
              cases bindApproveRejectRequest input <;> simp
            · revert hv
              cases validateApproveRejectRequest input <;> simp
            · simp only [bne_iff_ne, ne_eq, Decidable.not_not] at hpend
              exact hpend
            · rw [← hdb, hres]

/-! ### C2 (amended) -/

/-- C2 (amended): a Decide call (valid action, i.e. approve or reject)
on a leave whose status is not pending fails with the
"already processed" rejection — which the handler writes as HTTP 400,
not as a 409 Conflict — and leaves the store completely unchanged; and
after a successful Decide, a second Decide on the same id always fails
the same way, regardless of which action either call requested. -/
theorem C2_decide_nonpending_rejected
    (db : DB) (lid aid aid2 : Nat) (role role2 : String)
    (input input2 : ApproveRejectRequest) (leave res : LeaveRequest) :
    (validateApproveRejectRequest input = true →
      db.findLeave lid = some leave →
      leave.status ≠ "pending" →
      ApproveRejectLeave db lid aid role input = (.alreadyProcessed, db) ∧
      DecideResult.alreadyProcessed.toStatus = 400) ∧
    (validateApproveRejectRequest input2 = true →
      (ApproveRejectLeave db lid aid role input).1 = .ok res →
      (ApproveRejectLeave (ApproveRejectLeave db lid aid role input).2
        lid aid2 role2 input2).1 = .alreadyProcessed) := by
  constructor
  · intro hv hfound hne
    have hb := bindApproveRejectRequest_of_validate hv
    have hne' : (leave.status != "pending") = true := bne_iff_ne.mpr hne
    refine ⟨?_, rfl⟩
    simp [ApproveRejectLeave, hb, hv, hfound, hne']
  · intro hv2 hok
    have hpair : ApproveRejectLeave db lid aid role input =
        (.ok res, (ApproveRejectLeave db lid aid role input).2) := by
      rw [← hok]
    obtain ⟨hb1, hv1, leave, hfound, hpend, hscope, hres, hdb2⟩ :=
      ApproveRejectLeave_ok_inv hpair
    have hid : (leave.id == lid) = true := by
      have hf : List.find? (fun l => l.id == lid) db.leaves = some leave := hfound
      have h9 := List.find?_some hf
      simpa using h9
    have hlid : leave.id = lid := beq_iff_eq.mp hid
    have hresid : res.id = leave.id := by rw [hres, decideUpdate_id]
    have hmap : ((db.leaves.map (fun l => if l.id == leave.id then res else l)).find?
        (fun l => l.id == lid)) = some res := by
      have h2 : (fun l : LeaveRequest => l.id == lid)
          ((fun l => if l.id == leave.id then res else l) leave) = true := by
        simp only [beq_self_eq_true, if_true]
        simp [hresid, hlid]
      have step := find?_replace_first (fun l : LeaveRequest => l.id == lid)
        (fun l => if l.id == leave.id then res else l) db.leaves leave hfound
        (by
          intro x hx
          have hxne : x.id ≠ lid := by simpa using hx
          have : (x.id == leave.id) = false := by
            simp [hlid, hxne]
          simp [this]) h2
      simpa using step
    have hres2 : res.status ≠ "pending" := by
      rcases decideUpdate_status (validateApproveRejectRequest_action hv1) with h | h
      · rw [hres, h]; simp
      · rw [hres, h]; simp
    have hb2 := bindApproveRejectRequest_of_validate hv2
    have hne2' : (res.status != "pending") = true := bne_iff_ne.mpr hres2
    rw [hdb2]
    simp only [beq_iff_eq] at hmap
    simp [ApproveRejectLeave, DB.findLeave, hmap, hb2, hv2, hne2', hres2,
      -List.find?_map]

/-- The record as it stands after faculty 2 approves pending leave 1. -/
def leaveC2decided : LeaveRequest :=
  { pendingLeave96 with status := "approved", approvedBy := some 2 }

def dbC2pending : DB :=
  { users := [alice, bob], leaves := [pendingLeave96], attendance := [],
    nextLeaveID := 2, nextAttendanceID := 1 }

/-- C2 witness: deciding the already-approved leave of `dbC2` rejects
and leaves the store unchanged, and after faculty 2 approves the
pending leave of `dbC2pending`, a second decide (by a different actor
with a different action) is rejected as already processed. -/
theorem C2_decide_nonpending_rejected_witness :
    (validateApproveRejectRequest inputApprove = true ∧
     dbC2.findLeave 1 = some approvedLeave96 ∧
     approvedLeave96.status ≠ "pending" ∧
     ApproveRejectLeave dbC2 1 2 "faculty" inputApprove =
       (.alreadyProcessed, dbC2)) ∧
    (validateApproveRejectRequest inputReject = true ∧
     (ApproveRejectLeave dbC2pending 1 2 "faculty" inputApprove).1 =
       .ok leaveC2decided ∧
     (ApproveRejectLeave (ApproveRejectLeave dbC2pending 1 2 "faculty" inputApprove).2
       1 3 "warden" inputReject).1 = .alreadyProcessed) := by
  refine ⟨⟨by decide, by decide, by decide, ?_⟩, by decide, by decide, ?_⟩
  · exact (C2_decide_nonpending_rejected dbC2 1 2 3 "faculty" "warden"
      inputApprove inputReject approvedLeave96 leaveC2decided).1
      (by decide) (by decide) (by decide) |>.1
  · exact (C2_decide_nonpending_rejected dbC2pending 1 2 3 "faculty" "warden"
      inputApprove inputReject approvedLeave96 leaveC2decided).2
      (by decide) (by decide)

/-! ### C3 (amended) -/

/-- C3 (amended): the handler's role dispatch guards only the faculty
and warden branches and the route carries no role gate, so a
student-role actor is NOT excluded from Decide: on any pending leave a
student's Decide call with a valid action succeeds, transitions the
status according to the action, and records the student as approver —
regardless of any department or hostel match. -/
theorem C3_student_decide_unchecked
    (db : DB) (lid sid : Nat) (input : ApproveRejectRequest)
    (leave : LeaveRequest)
    (hv : validateApproveRejectRequest input = true)
    (hfound : db.findLeave lid = some leave)
    (hpend : leave.status = "pending") :
    (ApproveRejectLeave db lid sid "student" input).1 =
      .ok (decideUpdate sid input leave) ∧
    (decideUpdate sid input leave).approvedBy = some sid ∧
    ((decideUpdate sid input leave).status = "approved" ∨
     (decideUpdate sid input leave).status = "rejected") := by
  have hb := bindApproveRejectRequest_of_validate hv
  have hscope : decideScopeCheck db sid "student" leave = none :=
    decideScopeCheck_other (by decide) (by decide)
  refine ⟨?_, rfl, decideUpdate_status (validateApproveRejectRequest_action hv)⟩
  simp [ApproveRejectLeave, hb, hv, hfound, hpend, hscope]

/-- C3 witness: student 5 approves student 1's pending leave. -/
theorem C3_student_decide_unchecked_witness :
    (validateApproveRejectRequest inputApprove = true ∧
     dbC3.findLeave 1 = some pendingLeave96 ∧
     pendingLeave96.status = "pending") ∧
    (ApproveRejectLeave dbC3 1 5 "student" inputApprove).1 =
      .ok (decideUpdate 5 inputApprove pendingLeave96) ∧
    (decideUpdate 5 inputApprove pendingLeave96).approvedBy = some 5 := by
  refine ⟨⟨by decide, by decide, by decide⟩, ?_, ?_⟩
  · exact (C3_student_decide_unchecked dbC3 1 5 inputApprove pendingLeave96
      (by decide) (by decide) (by decide)).1
  · exact (C3_student_decide_unchecked dbC3 1 5 inputApprove pendingLeave96
      (by decide) (by decide) (by decide)).2.1

/-! ### C7 (amended) -/

/-- C7 (amended): when a record already exists for (student, date), a
second Mark with `present = true` is rejected with the
"already marked" error (HTTP 400) and the store is unchanged; a second
Mark with `present = false` is also rejected and also creates nothing,
but it fails earlier, at JSON binding (`Present` is `binding:"required"`
and `false` is the bool zero value), so its error is the binding error,
not "already marked". -/
theorem C7_duplicate_mark_rejected
    (db : DB) (markerID : Nat) (req : MarkAttendanceRequest) (stu : User)
    (ex : Attendance) :
    (req.present = true →
      validateMarkAttendanceRequest req = true →
      db.findUser req.studentID = some stu →
      db.attendance.find? (fun a =>
        a.studentID == req.studentID && a.date == truncDay req.date) = some ex →
      MarkAttendance db markerID req = (.alreadyMarked, db)) ∧
    (req.present = false →
      MarkAttendance db markerID req = (.bindReject, db)) := by
  constructor
  · intro hp hv hstu hex
    have hb : bindMarkAttendanceRequest req = true := by
      simp only [validateMarkAttendanceRequest, Bool.and_eq_true, and_assoc] at hv
      simp [bindMarkAttendanceRequest, hv.1, hv.2.1, hp]
    simp [MarkAttendance, hb, hv, hstu, hex]
  · intro hp
    have hb : bindMarkAttendanceRequest req = false := by
      simp [bindMarkAttendanceRequest, hp]
    simp [MarkAttendance, hb]

def reqC7true : MarkAttendanceRequest :=
  { studentID := 1, date := 96, present := true,
    subject := none, period := none }

/-- C7 witness: on the store that already holds a record for
(student 1, day 4), a `present = true` re-mark yields the already-marked
rejection and a `present = false` re-mark yields the binding rejection;
neither changes the store. -/
theorem C7_duplicate_mark_rejected_witness :
    (reqC7true.present = true ∧
     validateMarkAttendanceRequest reqC7true = true ∧
     dbC7.findUser 1 = some alice ∧
     MarkAttendance dbC7 2 reqC7true = (.alreadyMarked, dbC7)) ∧
    (reqC7false.present = false ∧
     MarkAttendance dbC7 2 reqC7false = (.bindReject, dbC7)) := by
  refine ⟨⟨by decide, by decide, by decide, ?_⟩, by decide, ?_⟩
  · exact (C7_duplicate_mark_rejected dbC7 2 reqC7true alice
      { id := 1, studentID := 1, date := 96, present := true,
        markedBy := 2, subject := none, period := none }).1
      (by decide) (by decide) (by decide) (by decide)
  · exact (C7_duplicate_mark_rejected dbC7 2 reqC7false alice
      { id := 1, studentID := 1, date := 96, present := true,
        markedBy := 2, subject := none, period := none }).2 (by decide)

/-! ### C9 (amended) -/

/-- C9 (amended): for an actor whose role is none of admin, student,
faculty, warden, List does deny with Forbidden, but Get does not: the
permission chain in GetLeaveDetails checks only the student, faculty
and warden roles, so any other role — recognized or not — receives the
full leave record. -/
theorem C9_unknown_role_list_forbidden_get_allowed
    (db : DB) (uid lid : Nat) (role : String) (q : ListQuery)
    (leave : LeaveRequest)
    (h1 : role ≠ "admin") (h2 : role ≠ "student") (h3 : role ≠ "faculty")
    (h4 : role ≠ "warden") :
    ListLeaves db uid role q = some .forbidden ∧
    (db.findLeave lid = some leave →
      GetLeaveDetails db lid uid role = .ok leave) := by
  have f1 : (role == "admin") = false := beq_eq_false_iff_ne.mpr h1
  have f2 : (role == "student") = false := beq_eq_false_iff_ne.mpr h2
  have f3 : (role == "faculty") = false := beq_eq_false_iff_ne.mpr h3
  have f4 : (role == "warden") = false := beq_eq_false_iff_ne.mpr h4
  constructor
  · simp [ListLeaves, f1, f2, f3, f4]
  · intro hfound
    simp [GetLeaveDetails, hfound, f2, f3, f4]

/-- C9 witness: role "guest" is denied by List but reads leave 1 via Get. -/
theorem C9_unknown_role_witness :
    ListLeaves dbC9 9 "guest" { status := "", leaveType := "" } =
      some .forbidden ∧
    (dbC9.findLeave 1 = some pendingLeave96 ∧
     GetLeaveDetails dbC9 1 9 "guest" = .ok pendingLeave96) := by
  refine ⟨?_, by decide, ?_⟩
  · exact (C9_unknown_role_list_forbidden_get_allowed dbC9 9 1 "guest"
      { status := "", leaveType := "" } pendingLeave96
      (by decide) (by decide) (by decide) (by decide)).1
  · exact (C9_unknown_role_list_forbidden_get_allowed dbC9 9 1 "guest"
      { status := "", leaveType := "" } pendingLeave96
      (by decide) (by decide) (by decide) (by decide)).2 (by decide)

/-! ### C10 -/

/-- C10: for every actor whose role is not student, the attendance view
and the single-student stats only require the `student_id` query
parameter to be non-empty and then ignore its value entirely: the view
always returns student 1's records (for any filters) and the stats are
always computed for student 1, whatever student id was requested. -/
theorem C10_nonstudent_placeholder_student_one
    (db : DB) (uid : Nat) (role : String) (p p2 : String)
    (sd ed : Option Nat) (subj : String) (student1 : User)
    (hrole : role ≠ "student") (hp : p ≠ "") (hp2 : p2 ≠ "")
    (hu1 : db.findUser 1 = some student1) :
    ViewAttendance db uid role p sd ed subj =
      .ok (attendanceQuery db 1 sd ed subj) ∧
    ViewAttendance db uid role p sd ed subj =
      ViewAttendance db uid role p2 sd ed subj ∧
    GetStats db uid role p = GetStats db uid role p2 ∧
    (GetStats db uid role p).selectedStudent = some 1 := by
  have hr : (role == "student") = false := beq_eq_false_iff_ne.mpr hrole
  have hpf : (p == "") = false := beq_eq_false_iff_ne.mpr hp
  have hp2f : (p2 == "") = false := beq_eq_false_iff_ne.mpr hp2
  refine ⟨?_, ?_, ?_, ?_⟩
  · simp [ViewAttendance, hr, hpf]
  · simp [ViewAttendance, hr, hpf, hp2f]
  · simp [GetStats, hr, hpf, hp2f]
  · simp [GetStats, hr, hpf, hu1, GetStatsResult.selectedStudent]

def dbC10 : DB :=
  { users := [alice], leaves := [],
    attendance := [{ id := 1, studentID := 1, date := 96, present := true,
                     markedBy := 2, subject := none, period := none }],
    nextLeaveID := 1, nextAttendanceID := 2 }

/-- C10 witness: a faculty caller requesting student "42" (or "7") gets
student 1's records and student 1's stats. -/
theorem C10_nonstudent_placeholder_witness :
    ("faculty" ≠ "student" ∧ "42" ≠ "" ∧ "7" ≠ "" ∧
     dbC10.findUser 1 = some alice) ∧
    ViewAttendance dbC10 2 "faculty" "42" none none "" =
      .ok (attendanceQuery dbC10 1 none none "") ∧
    GetStats dbC10 2 "faculty" "42" = GetStats dbC10 2 "faculty" "7" ∧
    (GetStats dbC10 2 "faculty" "42").selectedStudent = some 1 := by
  refine ⟨⟨by decide, by decide, by decide, by decide⟩, ?_, ?_, ?_⟩
  · exact (C10_nonstudent_placeholder_student_one dbC10 2 "faculty" "42" "7"
      none none "" alice (by decide) (by decide) (by decide) (by decide)).1
  · exact (C10_nonstudent_placeholder_student_one dbC10 2 "faculty" "42" "7"
      none none "" alice (by decide) (by decide) (by decide) (by decide)).2.2.1
  · exact (C10_nonstudent_placeholder_student_one dbC10 2 "faculty" "42" "7"
      none none "" alice (by decide) (by decide) (by decide) (by decide)).2.2.2

end Campus
